import Mathlib

/-!
# Verification of the user-service request-ingress pipeline and lifecycle controller

Shallow embedding of the Go code of `duynhne/user-service`:
configuration parsing (`config/config.go`), the authentication middleware
(`middleware/auth.go`), the Prometheus metrics middleware, the logging/trace
middleware (`middleware/logging.go`), the readiness gate and graceful-shutdown
sequence of `main`, and validation-error sanitisation
(`internal/web/v1/validation.go`).

Machine integers are modelled as `Nat`/`Int`; Go strings as Lean `String`
(byte length and char length coincide on the ASCII inputs at issue);
the outcome of external effects (environment lookup, `time.ParseDuration`,
the outbound auth-service call, the random source) is passed in explicitly
as a parameter, so every definition is executable.
-/

namespace UserService

/-! ## Configuration (`config/config.go`) -/

/-- Go `strings.ToLower` restricted to ASCII (all comparisons in the config
code are against ASCII literals): lowercase every character. -/
def goToLower (s : String) : String := String.mk (s.data.map Char.toLower)

/-- Model of `getEnvBool` (config.go lines 270-277): empty value gives the default,
otherwise the lowercased value must be one of "true", "1", "yes".
The `value` parameter is the result of `os.Getenv(key)`. -/
def getEnvBool (value : String) (defaultValue : Bool) : Bool :=
  if value = "" then defaultValue
  else
    let v := goToLower value
    v = "true" || v = "1" || v = "yes"

/-- The `Load` function (config.go line 161) wires `AuthAllowUnauthenticatedFallback`
to `getEnvBool "AUTH_ALLOW_UNAUTHENTICATED_FALLBACK" false`. -/
def loadAuthAllowUnauthenticatedFallback (envValue : String) : Bool :=
  getEnvBool envValue false

/-- Outcome of `os.Getenv` followed by `time.ParseDuration` for a duration
environment variable: the variable is unset (empty string), the string does
not parse, or it parses to a duration whose whole-second count
(`int(timeout.Seconds())`, truncated toward zero) is `seconds`. -/
inductive EnvDurOutcome where
  | unset
  | parseError
  | parsed (seconds : Int)
deriving DecidableEq, Repr

/-- Model of `getEnvDurationSeconds` (config.go lines 312-336): default on unset or
unparsable input; hardcoded max of 60 seconds; non-positive or over-limit
values fall back to the default. -/
def getEnvDurationSeconds (env : EnvDurOutcome) (defaultValueSeconds : Int) : Int :=
  let maxSeconds : Int := 60
  match env with
  | .unset => defaultValueSeconds
  | .parseError => defaultValueSeconds
  | .parsed seconds =>
    if seconds ≤ 0 || seconds > maxSeconds then defaultValueSeconds else seconds

/-- Model of `getEnvDurationSecondsWithMax` (config.go lines 347-364): same shape with
the max passed in. -/
def getEnvDurationSecondsWithMax (env : EnvDurOutcome)
    (defaultValueSeconds maxSeconds : Int) : Int :=
  match env with
  | .unset => defaultValueSeconds
  | .parseError => defaultValueSeconds
  | .parsed seconds =>
    if seconds ≤ 0 || seconds > maxSeconds then defaultValueSeconds else seconds

/-- In `Load` (config.go line 158): `ShutdownTimeout` with default 10. -/
def loadShutdownTimeout (env : EnvDurOutcome) : Int :=
  getEnvDurationSeconds env 10

/-- In `Load` (config.go line 159): `ReadinessDrainDelay` with default 5, max 30. -/
def loadReadinessDrainDelay (env : EnvDurOutcome) : Int :=
  getEnvDurationSecondsWithMax env 5 30

/-! ## Validation-error sanitisation (`internal/web/v1/validation.go`) -/

/-- Does `l` start with the segment `sub`? (char-by-char, Go slice compare). -/
def startsSeg : List Char → List Char → Bool
  | [], _ => true
  | _ :: _, [] => false
  | a :: as, b :: bs => a = b && startsSeg as bs

/-- Does `l` contain `sub` as a contiguous segment?  Models Go
`strings.Contains(l, sub)`. -/
def hasSeg (sub : List Char) : List Char → Bool
  | [] => startsSeg sub []
  | l@(_ :: tail) => startsSeg sub l || hasSeg sub tail

/-- Go `strings.Contains(s, sub)`. -/
def strContains (s sub : String) : Bool := hasSeg sub.data s.data

/-- Model of `sanitizeValidationError` (validation.go lines 7-25).  `none` stands for a
nil error; `some msg` for an error whose `Error()` text is `msg`. -/
def sanitizeValidationError (err : Option String) : String :=
  match err with
  | none => ""
  | some msg =>
    if strContains msg "validation" || strContains msg "Field validation" ||
       strContains msg "cannot unmarshal" || strContains msg "bind" ||
       strContains msg "Key:" then "Invalid request"
    else if msg.length < 100 && !(strContains msg "Error:") then msg
    else "Invalid request"

/-- The internal markers of `sanitizeValidationError`: the five tested in its
first guard plus "Error:" tested in the pass-through guard. -/
def internalMarkers : List String :=
  ["validation", "Field validation", "cannot unmarshal", "bind", "Key:", "Error:"]

/-- True when `msg` contains at least one internal marker. -/
def hasInternalMarker (msg : String) : Bool :=
  internalMarkers.any (fun m => strContains msg m)

/-! ## Authentication middleware (`middleware/auth.go`, src/unnamed/part_001) -/

/-- The `AuthUser` record: the identity payload returned by the auth service. -/
structure AuthUser where
  id : String
  username : String
  email : String
deriving DecidableEq, Repr

/-- Outcome of the outbound `GET /api/v1/auth/me` call made by
`AuthClient.GetMe`: transport failure, a 401, some other non-200 status,
a 200 whose body fails to decode, or a 200 with a well-formed payload. -/
inductive AuthServiceReply where
  | transportError (msg : String)
  | status401
  | statusOther (code : Nat) (body : String)
  | okBadBody (msg : String)
  | ok (user : AuthUser)
deriving DecidableEq, Repr

/-- Model of `AuthClient.GetMe` (auth middleware lines 38-65): classify the reply.
A 401 yields the error text "invalid or expired token"; any other non-200
status, a decode error or a transport error yield their wrapped error;
a well-formed 200 yields the user.  The `token` is forwarded on the wire and
does not otherwise affect the classification. -/
def GetMe (token : String) (reply : AuthServiceReply) : Except String AuthUser :=
  match reply with
  | .transportError m => .error ("request auth service: " ++ m)
  | .status401 => .error "invalid or expired token"
  | .statusOther code body =>
    .error ("auth service error: " ++ toString code ++ " - " ++ body)
  | .okBadBody m => .error ("decode response: " ++ m)
  | .ok user => .ok user

/-- Is the ignore-payload view of `GetMe` an error? -/
def getMeFails (token : String) (reply : AuthServiceReply) : Bool :=
  match GetMe token reply with
  | .error _ => true
  | .ok _ => false

/-- Result of running the auth middleware on one request: whether
`AbortWithStatusJSON` was called (and with what status and body), whether
`c.Next()` ran (the handler chain was invoked), and the context keys set. -/
structure GinCtxResult where
  aborted : Bool
  status : Option Nat
  body : Option String
  handlerInvoked : Bool
  userId : Option String
  username : Option String
  email : Option String
deriving DecidableEq, Repr

/-- The gin JSON body `gin.H\x7b"error": msg\x7d` as rendered text. -/
def ginErrBody (msg : String) : String :=
  "\x7b\"error\":\"" ++ msg ++ "\"\x7d"

/-- Rejection path: `c.AbortWithStatusJSON(401, gin.H\x7b"error": msg\x7d)`. -/
def reject401 (msg : String) : GinCtxResult :=
  { aborted := true, status := some 401, body := some (ginErrBody msg),
    handlerInvoked := false, userId := none, username := none, email := none }

/-- Fallback path: `c.Set("user_id", "1"); c.Next()`. -/
def fallbackPass : GinCtxResult :=
  { aborted := false, status := none, body := none,
    handlerInvoked := true, userId := some "1", username := none, email := none }

/-- The `"Bearer "` constant of the middleware. -/
def bearerTag : String := "Bearer "

/-- Model of `AuthMiddleware` (auth middleware lines 71-119).  `authHeader` is
`c.GetHeader("Authorization")` (empty when the header is absent);
`reply` is the auth-service outcome observed if and when `GetMe` is called. -/
def AuthMiddleware (allowUnauthenticatedFallback : Bool)
    (authHeader : String) (reply : AuthServiceReply) : GinCtxResult :=
  if authHeader = "" then
    if allowUnauthenticatedFallback then fallbackPass
    else reject401 "Authentication required"
  else if authHeader.length ≤ bearerTag.length ||
          String.mk (authHeader.data.take bearerTag.length) ≠ bearerTag then
    if allowUnauthenticatedFallback then fallbackPass
    else reject401 "Invalid authorization header"
  else
    let token := String.mk (authHeader.data.drop bearerTag.length)
    match GetMe token reply with
    | .error _ =>
      if allowUnauthenticatedFallback then fallbackPass
      else reject401 "Invalid or expired token"
    | .ok user =>
      { aborted := false, status := none, body := none, handlerInvoked := true,
        userId := some user.id, username := some user.username,
        email := some user.email }

/-- The middleware's failure condition: missing header, malformed header, or
auth-service resolution failure (in the code's test order). -/
def authFailCond (authHeader : String) (reply : AuthServiceReply) : Prop :=
  authHeader = "" ∨
  (authHeader.length ≤ bearerTag.length ∨
   String.mk (authHeader.data.take bearerTag.length) ≠ bearerTag) ∨
  getMeFails (String.mk (authHeader.data.drop bearerTag.length)) reply = true

/-! ## Prometheus metrics middleware (src/unnamed/part_001, lines 190-252) -/

/-- One touch of a Prometheus collector, with its label values.  The
`requestSize` observation uses an empty code label, as in the source
(`requestSize.WithLabelValues(method, path, "")`). -/
inductive MetricEvent where
  | incInFlight (method path : String)
  | decInFlight (method path : String)
  | observeRequestSize (method path code : String) (bytes : Int)
  | observeDuration (method path code : String)
  | incRequestTotal (method path code : String)
  | observeResponseSize (method path code : String) (bytes : Int)
  | incErrorRate (method path code : String)
deriving DecidableEq, Repr

/-- How the rest of the chain (`c.Next()`) completes: normally with a final
response status and written size, or by a panic propagating out of it.  A
request whose client connection drops still completes normally (the handler
runs to the end), so it is the `normal` case. -/
inductive HandlerOutcome where
  | normal (status : Nat) (responseBytes : Int)
  | panicked
deriving DecidableEq, Repr

/-- Model of `shouldCollectMetrics` (lines 190-207): skip paths starting with one of
the five infrastructure prefixes. -/
def shouldCollectMetrics (path : String) : Bool :=
  let infrastructurePaths : List String :=
    ["/health", "/ready", "/metrics", "/readiness", "/liveness"]
  !(infrastructurePaths.any (fun skipPath => startsSeg skipPath.data path.data))

/-- Result of one pass through `PrometheusMiddleware`: the metric touches it
performed, in order, and whether a panic propagated out of it. -/
structure MetricsRun where
  events : List MetricEvent
  panicPropagated : Bool
deriving DecidableEq, Repr

/-- Model of `PrometheusMiddleware` (lines 209-252).  On an exempted path it calls
`c.Next()` and returns.  Otherwise it increments the in-flight gauge and
observes the request size, runs `c.Next()`, and — only when `c.Next()`
returns normally, since no statement is deferred — observes duration,
total, response size, the 5xx error counter, and decrements the gauge.
A panic in the chain unwinds through this function (gin's recovery sits
outside it), skipping everything after `c.Next()`. -/
def PrometheusMiddleware (method path : String) (contentLength : Int)
    (outcome : HandlerOutcome) : MetricsRun :=
  if !shouldCollectMetrics path then
    { events := [],
      panicPropagated := outcome matches .panicked }
  else
    match outcome with
    | .panicked =>
      { events := [.incInFlight method path,
                   .observeRequestSize method path "" contentLength],
        panicPropagated := true }
    | .normal status responseBytes =>
      let statusCode := toString status
      { events := [.incInFlight method path,
                   .observeRequestSize method path "" contentLength,
                   .observeDuration method path statusCode,
                   .incRequestTotal method path statusCode,
                   .observeResponseSize method path statusCode responseBytes]
                  ++ (if status ≥ 500 then [.incErrorRate method path statusCode]
                      else [])
                  ++ [.decInFlight method path],
        panicPropagated := false }

/-- Net change of the `requests_in_flight` gauge at label pair `(m, p)`
produced by a list of metric events. -/
def inFlightDelta (events : List MetricEvent) (m p : String) : Int :=
  events.foldl
    (fun acc e =>
      match e with
      | .incInFlight m2 p2 => if m2 = m && p2 = p then acc + 1 else acc
      | .decInFlight m2 p2 => if m2 = m && p2 = p then acc - 1 else acc
      | _ => acc)
    0

/-! ## Readiness gate and `/ready` handler (src/unnamed/part_000) -/

/-- The single mutation `main` performs on the `isShuttingDown` atomic flag:
`isShuttingDown.Store(true)` (line 152). -/
def beginDrain (_flag : Bool) : Bool := true

/-- An HTTP response of the readiness probe. -/
structure ReadyResponse where
  status : Nat
  body : String
deriving DecidableEq, Repr

/-- The gin JSON body `gin.H\x7b"status": s\x7d` as rendered text. -/
def ginStatusBody (s : String) : String :=
  "\x7b\"status\":\"" ++ s ++ "\"\x7d"

/-- The `GET /ready` handler (lines 104-110): 503 `shutting_down` once the
flag is set, 200 `ok` otherwise. -/
def readyHandler (isShuttingDown : Bool) : ReadyResponse :=
  if isShuttingDown then
    { status := 503, body := ginStatusBody "shutting_down" }
  else
    { status := 200, body := ginStatusBody "ok" }

/-! ## Trace identifiers (`middleware/logging.go`) -/

/-- Loop body of `splitTraceParent`: `cur` is the current segment reversed,
`acc` the finished segments in reverse order.  Empty segments are skipped,
exactly as the `start < i` / `start < len` guards do in the source. -/
def splitHyphensAux : List Char → List (List Char) → List Char → List (List Char)
  | cur, acc, [] =>
    (if cur.isEmpty then acc else cur.reverse :: acc).reverse
  | cur, acc, c :: cs =>
    if c = '-' then
      splitHyphensAux [] (if cur.isEmpty then acc else cur.reverse :: acc) cs
    else
      splitHyphensAux (c :: cur) acc cs

/-- Model of `splitTraceParent` (logging.go lines 38-54): split on '-', dropping empty
segments. -/
def splitTraceParent (traceParent : String) : List String :=
  (splitHyphensAux [] [] traceParent.data).map (fun cs => String.mk cs)

/-- The lowercase hex alphabet used by Go's `hex.EncodeToString`. -/
def hexTable : List Char := "0123456789abcdef".data

/-- One nibble to a hex character (Go `hextable[v]`). -/
def hexDigit (n : Nat) : Char := hexTable.getD n '0'

/-- One byte (value taken mod 256, as a Go `byte`) to its two hex chars. -/
def byteToHex (b : Nat) : List Char :=
  [hexDigit (b % 256 / 16), hexDigit (b % 256 % 16)]

/-- Model of `generateTraceID` (logging.go lines 57-62): hex-encode the 16 random
bytes read from `crypto/rand`.  The random source is passed in as `bytes`. -/
def generateTraceID (bytes : List Nat) : String :=
  String.mk ((bytes.map byteToHex).flatten)

/-- The trace id carried by a non-empty `traceparent` header, when its split
has at least two parts and the second is non-empty (logging.go lines 19-26). -/
def traceFromParent (traceParent : String) : Option String :=
  if traceParent = "" then none
  else
    match (splitTraceParent traceParent).get? 1 with
    | some part => if part ≠ "" then some part else none
    | none => none

/-- Model of `GetTraceID` (logging.go lines 17-35): traceparent trace-id if present,
else the `X-Trace-ID` header if non-empty, else a fresh random id. -/
def GetTraceID (traceParentHeader traceIdHeader : String)
    (freshBytes : List Nat) : String :=
  match traceFromParent traceParentHeader with
  | some t => t
  | none =>
    if traceIdHeader ≠ "" then traceIdHeader
    else generateTraceID freshBytes

/-- Observable effect of `LoggingMiddleware` (logging.go lines 65-113) on the
trace identifier: the id stored in the gin context and the `X-Trace-ID`
response header are both the `GetTraceID` result. -/
structure LogRun where
  ctxTraceId : String
  responseTraceHeader : String
deriving DecidableEq, Repr

/-- The trace-identifier part of `LoggingMiddleware`. -/
def LoggingRun (traceParentHeader traceIdHeader : String)
    (freshBytes : List Nat) : LogRun :=
  let traceID := GetTraceID traceParentHeader traceIdHeader freshBytes
  { ctxTraceId := traceID, responseTraceHeader := traceID }

/-- No '-' occurs in `s`. -/
abbrev NoDash (s : String) : Prop := ∀ c ∈ s.data, c ≠ '-'

/-- True when `c` is a lowercase hex digit. -/
def isHexLower (c : Char) : Bool := hexTable.contains c

/-! ## Graceful shutdown sequence (src/unnamed/part_000, lines 144-191) -/

/-- How the tracer variable `tp` of `main` ends up after startup.  `tp` is
declared at line 43 as an interface; `InitTracing` (tracing.go line 36)
returns a concrete `*sdktrace.TracerProvider` and returns a nil pointer on
every failure path, and `main` line 45 assigns the returned value to `tp`
even when `err != nil`.  So after a failed initialisation `tp` holds a
typed-nil: an interface wrapping a nil pointer, which compares non-nil at
the `tp != nil` check of line 182, whereupon `tp.Shutdown` dereferences the
nil receiver and panics. -/
inductive TracerInit where
  | disabled
  | initFailed
  | initialized
deriving DecidableEq, Repr

/-- The context a teardown step is handed: the shared deadline context
derived at main line 162, or no context at all — `pool.Close()` at line 178
takes no argument, so the program places no deadline bound on that step. -/
inductive StepCtx where
  | sharedDeadline (timeoutSeconds : Int)
  | noDeadline
deriving DecidableEq, Repr

/-- Outcomes of the fallible outcome-returning teardown steps: whether
`srv.Shutdown` returned an error (including a deadline timeout), and whether
`tp.Shutdown` on an initialised provider returned an error. -/
structure ShutdownOutcomes where
  httpErr : Bool
  tracerErr : Bool
deriving DecidableEq, Repr

/-- Events of the shutdown sequence, in order of execution.  Each
resource-teardown step records the context it was handed; `errored` records
whether the step's error branch was logged.  `tracerPanicked` is the
nil-receiver panic of `tp.Shutdown` on a typed-nil provider: it propagates
out of `main`, so no later statement of the sequence runs. -/
inductive ShutdownEvent where
  | setShuttingDown
  | drainSlept (delaySeconds : Int)
  | deadlineDerived (timeoutSeconds : Int)
  | httpShutdown (ctx : StepCtx) (errored : Bool)
  | dbPoolClosed (ctx : StepCtx)
  | tracerShutdown (ctx : StepCtx) (errored : Bool)
  | tracerPanicked
  | completed
deriving DecidableEq, Repr

/-- The shutdown path of `main` (lines 148-191), after the signal arrives:
set the flag, sleep the drain delay when positive, derive one deadline
context from the shutdown timeout, shut down the HTTP server with that
context (error logged, sequence continues), close the database pool — a call
that receives no deadline context — then branch on `tp`: a nil interface
(tracing disabled) skips the tracer step and reaches the completion log; an
initialised provider is shut down with the same shared context (error
logged, sequence continues) before the completion log; a typed-nil provider
passes the `tp != nil` check and panics, so the event trace ends there and
the completion log is never reached.  The trace records which context each
step received; whether an un-deadlined step finishes in bounded time is a
real-time question outside the embedding — the program supplies no bound. -/
def runShutdown (drainDelaySeconds timeoutSeconds : Int) (tracer : TracerInit)
    (oc : ShutdownOutcomes) : List ShutdownEvent :=
  [ShutdownEvent.setShuttingDown]
  ++ (if drainDelaySeconds > 0 then [ShutdownEvent.drainSlept drainDelaySeconds]
      else [])
  ++ [ShutdownEvent.deadlineDerived timeoutSeconds,
      ShutdownEvent.httpShutdown (StepCtx.sharedDeadline timeoutSeconds) oc.httpErr,
      ShutdownEvent.dbPoolClosed StepCtx.noDeadline]
  ++ (match tracer with
      | TracerInit.disabled => [ShutdownEvent.completed]
      | TracerInit.initFailed => [ShutdownEvent.tracerPanicked]
      | TracerInit.initialized =>
        [ShutdownEvent.tracerShutdown (StepCtx.sharedDeadline timeoutSeconds)
           oc.tracerErr,
         ShutdownEvent.completed])

/-- Constructor classifiers for ordering statements. -/
def isFlagStep : ShutdownEvent → Bool
  | .setShuttingDown => true
  | _ => false

def isSleepStep : ShutdownEvent → Bool
  | .drainSlept _ => true
  | _ => false

def isDeadlineStep : ShutdownEvent → Bool
  | .deadlineDerived _ => true
  | _ => false

def isHttpStep : ShutdownEvent → Bool
  | .httpShutdown _ _ => true
  | _ => false

def isDbStep : ShutdownEvent → Bool
  | .dbPoolClosed _ => true
  | _ => false

def isTracerStep : ShutdownEvent → Bool
  | .tracerShutdown _ _ => true
  | _ => false

/-- The first event satisfying `p` occurs strictly before the first event
satisfying `q`. -/
def stepBefore (evs : List ShutdownEvent) (p q : ShutdownEvent → Bool) : Bool :=
  match evs.findIdx? p, evs.findIdx? q with
  | some i, some j => i < j
  | _, _ => false

/-! ## Helper lemmas -/

theorem getEnvDurationSeconds_eq_withMax (env : EnvDurOutcome) (d : Int) :
    getEnvDurationSeconds env d = getEnvDurationSecondsWithMax env d 60 := by
  cases env <;> rfl

theorem getEnvDurationSecondsWithMax_bounds (env : EnvDurOutcome) (d m : Int)
    (hd : 0 < d) (hdm : d ≤ m) :
    0 < getEnvDurationSecondsWithMax env d m ∧
      getEnvDurationSecondsWithMax env d m ≤ m := by
  cases env with
  | unset => exact ⟨hd, hdm⟩
  | parseError => exact ⟨hd, hdm⟩
  | parsed s =>
    simp only [getEnvDurationSecondsWithMax]
    by_cases hs : s ≤ 0 ∨ s > m
    · have hb : (decide (s ≤ 0) || decide (s > m)) = true := by
        rcases hs with hs | hs <;> simp [hs]
      simp only [hb, if_true]
      exact ⟨hd, hdm⟩
    · push_neg at hs
      have hb : (decide (s ≤ 0) || decide (s > m)) = false := by
        simp only [Bool.or_eq_false_iff, decide_eq_false_iff_not, not_le, not_lt]
        omega
      simp only [hb, if_false]
      exact ⟨by omega, by omega⟩

/-! ## Claim theorems -/

/-- C10: the `allowUnauthenticatedFallback` flag is enabled exactly when the
value of `AUTH_ALLOW_UNAUTHENTICATED_FALLBACK` equals "true", "1" or "yes"
case-insensitively; every other value, the empty string included, leaves it
at the default `false`. -/
theorem C10_fallback_flag_strict (v : String) :
    loadAuthAllowUnauthenticatedFallback v = true ↔
      (goToLower v = "true" ∨ goToLower v = "1" ∨ goToLower v = "yes") := by
  by_cases h : v = ""
  · subst h; decide
  · unfold loadAuthAllowUnauthenticatedFallback getEnvBool
    rw [if_neg h]
    simp only [Bool.or_eq_true, decide_eq_true_eq]
    tauto

/-- C10 witness: a malformed value such as "on" does not enable the flag. -/
theorem C10_witness : loadAuthAllowUnauthenticatedFallback "on" = false := by
  have h := C10_fallback_flag_strict "on"
  cases hb : loadAuthAllowUnauthenticatedFallback "on"
  · rfl
  · exact absurd (h.mp hb) (by decide)

/-- C8: the effective shutdown timeout is always in (0, 60] seconds and is 10
when the variable is unset or unparsable; the effective readiness drain delay
is always in (0, 30] seconds and is 5 when unset or unparsable.  Non-positive
or over-limit parsed values fall back to the defaults, so no environment
input yields a value outside the bounds. -/
theorem C8_duration_bounds (envS envD : EnvDurOutcome) :
    (0 < loadShutdownTimeout envS ∧ loadShutdownTimeout envS ≤ 60) ∧
    (envS = .unset → loadShutdownTimeout envS = 10) ∧
    (envS = .parseError → loadShutdownTimeout envS = 10) ∧
    (∀ s : Int, s ≤ 0 ∨ 60 < s → loadShutdownTimeout (.parsed s) = 10) ∧
    (0 < loadReadinessDrainDelay envD ∧ loadReadinessDrainDelay envD ≤ 30) ∧
    (envD = .unset → loadReadinessDrainDelay envD = 5) ∧
    (envD = .parseError → loadReadinessDrainDelay envD = 5) ∧
    (∀ s : Int, s ≤ 0 ∨ 30 < s → loadReadinessDrainDelay (.parsed s) = 5) := by
  refine ⟨?_, ?_, ?_, ?_, ?_, ?_, ?_, ?_⟩
  · rw [loadShutdownTimeout, getEnvDurationSeconds_eq_withMax]
    exact getEnvDurationSecondsWithMax_bounds envS 10 60 (by norm_num) (by norm_num)
  · rintro rfl; rfl
  · rintro rfl; rfl
  · intro s hs
    rw [loadShutdownTimeout, getEnvDurationSeconds_eq_withMax,
      getEnvDurationSecondsWithMax]
    rw [if_pos]
    rcases hs with hs | hs <;> simp <;> omega
  · exact getEnvDurationSecondsWithMax_bounds envD 5 30 (by norm_num) (by norm_num)
  · rintro rfl; rfl
  · rintro rfl; rfl
  · intro s hs
    rw [loadReadinessDrainDelay, getEnvDurationSecondsWithMax]
    rw [if_pos]
    rcases hs with hs | hs <;> simp <;> omega

/-- C8 witness: the defaults at unset variables, and a clamped over-limit
value. -/
theorem C8_witness :
    loadShutdownTimeout .unset = 10 ∧ loadReadinessDrainDelay .unset = 5 ∧
      loadShutdownTimeout (.parsed 90) = 10 := by
  have h := C8_duration_bounds EnvDurOutcome.unset EnvDurOutcome.unset
  exact ⟨h.2.1 rfl, h.2.2.2.2.2.1 rfl, h.2.2.2.1 90 (Or.inr (by norm_num))⟩

/-- C9: for every non-nil error, `sanitizeValidationError` yields the generic
"Invalid request" whenever the error text contains an internal marker
("validation", "Field validation", "cannot unmarshal", "bind", "Key:",
"Error:") or is at least 100 characters long, and passes the original text
through exactly when it is shorter than 100 characters and free of all those
markers. -/
theorem C9_sanitize_generic (msg : String) :
    (hasInternalMarker msg = true ∨ 100 ≤ msg.length →
      sanitizeValidationError (some msg) = "Invalid request") ∧
    (hasInternalMarker msg = false → msg.length < 100 →
      sanitizeValidationError (some msg) = msg) := by
  have hexp : hasInternalMarker msg = true ↔
      (strContains msg "validation" = true ∨ strContains msg "Field validation" = true ∨
       strContains msg "cannot unmarshal" = true ∨ strContains msg "bind" = true ∨
       strContains msg "Key:" = true ∨ strContains msg "Error:" = true) := by
    simp [hasInternalMarker, internalMarkers]
  constructor
  · intro hm
    simp only [sanitizeValidationError]
    by_cases h1 : (strContains msg "validation" || strContains msg "Field validation" ||
        strContains msg "cannot unmarshal" || strContains msg "bind" ||
        strContains msg "Key:") = true
    · rw [if_pos h1]
    · rw [if_neg h1]
      simp only [Bool.or_eq_true, not_or, Bool.not_eq_true] at h1
      obtain ⟨⟨⟨⟨hv, hf⟩, hc⟩, hb⟩, hk⟩ := h1
      rcases hm with hm | hm
      · have herr : strContains msg "Error:" = true := by
          rw [hexp] at hm
          rcases hm with h | h | h | h | h | h <;> simp_all
        rw [if_neg]
        simp [herr]
      · rw [if_neg]
        simp only [Bool.and_eq_true, decide_eq_true_eq, not_and]
        intro hlt
        omega
  · intro hm hlen
    have hall : ¬ (strContains msg "validation" = true ∨ strContains msg "Field validation" = true ∨
        strContains msg "cannot unmarshal" = true ∨ strContains msg "bind" = true ∨
        strContains msg "Key:" = true ∨ strContains msg "Error:" = true) := by
      rw [← hexp]; simp [hm]
    push_neg at hall
    obtain ⟨hv, hf, hc, hb, hk, he⟩ := hall
    simp only [Bool.not_eq_true] at hv hf hc hb hk he
    simp only [sanitizeValidationError]
    rw [if_neg (by simp [hv, hf, hc, hb, hk]), if_pos (by simp [hlen, he])]

/-- C9 witness: a short marker-free message passes through; a message with an
internal marker is replaced. -/
theorem C9_witness :
    sanitizeValidationError (some "invalid email") = "invalid email" ∧
    sanitizeValidationError (some "Key: boom") = "Invalid request" := by
  refine ⟨(C9_sanitize_generic "invalid email").2 (by decide) (by decide), ?_⟩
  exact (C9_sanitize_generic "Key: boom").1 (Or.inl (by decide))

/-- C2: with `allowUnauthenticatedFallback = false`, every request whose
Authorization header is missing, not correctly Bearer-prefixed, or rejected
by the auth service is aborted with HTTP 401 and the handler is never
invoked; a missing header yields the body {"error":"Authentication
required"}, and a well-formed credential answered 401 by the identity
service yields {"error":"Invalid or expired token"}. -/
theorem C2_reject_when_fallback_disabled (authHeader : String)
    (reply : AuthServiceReply) (h : authFailCond authHeader reply) :
    (AuthMiddleware false authHeader reply).aborted = true ∧
    (AuthMiddleware false authHeader reply).status = some 401 ∧
    (AuthMiddleware false authHeader reply).handlerInvoked = false ∧
    (authHeader = "" →
      (AuthMiddleware false authHeader reply).body =
        some (ginErrBody "Authentication required")) ∧
    (bearerTag.length < authHeader.length →
      String.mk (authHeader.data.take bearerTag.length) = bearerTag →
      reply = AuthServiceReply.status401 →
      (AuthMiddleware false authHeader reply).body =
        some (ginErrBody "Invalid or expired token")) := by
  by_cases h0 : authHeader = ""
  · subst h0
    refine ⟨rfl, rfl, rfl, fun _ => rfl, fun hlt _ _ => absurd hlt (by decide)⟩
  · by_cases h1 : (authHeader.length ≤ bearerTag.length ∨
        String.mk (authHeader.data.take bearerTag.length) ≠ bearerTag)
    · have hb : (decide (authHeader.length ≤ bearerTag.length) ||
          decide (String.mk (authHeader.data.take bearerTag.length) ≠ bearerTag)) = true := by
        rcases h1 with h1 | h1 <;> simp [h1]
      have heq : AuthMiddleware false authHeader reply =
          reject401 "Invalid authorization header" := by
        unfold AuthMiddleware
        rw [if_neg h0, if_pos hb]
        rfl
      rw [heq]
      refine ⟨rfl, rfl, rfl, fun he => absurd he h0, fun hlt htake _ => ?_⟩
      rcases h1 with h1 | h1
      · omega
      · exact absurd htake h1
    · push_neg at h1
      obtain ⟨hlen, htake⟩ := h1
      have hb : (decide (authHeader.length ≤ bearerTag.length) ||
          decide (String.mk (authHeader.data.take bearerTag.length) ≠ bearerTag)) = false := by
        simp only [Bool.or_eq_false_iff, decide_eq_false_iff_not, not_le, not_not]
        exact ⟨hlen, htake⟩
      have hg : getMeFails (String.mk (authHeader.data.drop bearerTag.length)) reply = true := by
        rcases h with h | h | h
        · exact absurd h h0
        · rcases h with h | h
          · omega
          · exact absurd htake h
        · exact h
      cases hr : GetMe (String.mk (authHeader.data.drop bearerTag.length)) reply with
      | ok u =>
        exfalso
        unfold getMeFails at hg
        rw [hr] at hg
        cases hg
      | error e =>
        have heq : AuthMiddleware false authHeader reply =
            reject401 "Invalid or expired token" := by
          unfold AuthMiddleware
          rw [if_neg h0, if_neg (by rw [hb]; simp)]
          simp only [hr]
          rfl
        rw [heq]
        exact ⟨rfl, rfl, rfl, fun he => absurd he h0, fun _ _ _ => rfl⟩

/-- C2 witness: a request with no Authorization header (identity service
would answer 401) is aborted with 401 and the authentication-required body;
the handler is not invoked. -/
theorem C2_witness :
    (AuthMiddleware false "" AuthServiceReply.status401).aborted = true ∧
    (AuthMiddleware false "" AuthServiceReply.status401).status = some 401 ∧
    (AuthMiddleware false "" AuthServiceReply.status401).handlerInvoked = false ∧
    ("" = "" →
      (AuthMiddleware false "" AuthServiceReply.status401).body =
        some (ginErrBody "Authentication required")) ∧
    (bearerTag.length < "".length →
      String.mk ("".data.take bearerTag.length) = bearerTag →
      AuthServiceReply.status401 = AuthServiceReply.status401 →
      (AuthMiddleware false "" AuthServiceReply.status401).body =
        some (ginErrBody "Invalid or expired token")) :=
  C2_reject_when_fallback_disabled "" AuthServiceReply.status401 (Or.inl rfl)

/-- C3: with `allowUnauthenticatedFallback = true`, the same failure
conditions synthesize the fallback principal instead: `user_id` is set to
"1" in the request context, the request is not aborted, and the handler is
invoked. -/
theorem C3_fallback_principal (authHeader : String) (reply : AuthServiceReply)
    (h : authFailCond authHeader reply) :
    (AuthMiddleware true authHeader reply).handlerInvoked = true ∧
    (AuthMiddleware true authHeader reply).aborted = false ∧
    (AuthMiddleware true authHeader reply).userId = some "1" := by
  by_cases h0 : authHeader = ""
  · subst h0
    exact ⟨rfl, rfl, rfl⟩
  · by_cases h1 : (authHeader.length ≤ bearerTag.length ∨
        String.mk (authHeader.data.take bearerTag.length) ≠ bearerTag)
    · have hb : (decide (authHeader.length ≤ bearerTag.length) ||
          decide (String.mk (authHeader.data.take bearerTag.length) ≠ bearerTag)) = true := by
        rcases h1 with h1 | h1 <;> simp [h1]
      have heq : AuthMiddleware true authHeader reply = fallbackPass := by
        unfold AuthMiddleware
        rw [if_neg h0, if_pos hb]
        rfl
      rw [heq]
      exact ⟨rfl, rfl, rfl⟩
    · push_neg at h1
      obtain ⟨hlen, htake⟩ := h1
      have hb : (decide (authHeader.length ≤ bearerTag.length) ||
          decide (String.mk (authHeader.data.take bearerTag.length) ≠ bearerTag)) = false := by
        simp only [Bool.or_eq_false_iff, decide_eq_false_iff_not, not_le, not_not]
        exact ⟨hlen, htake⟩
      have hg : getMeFails (String.mk (authHeader.data.drop bearerTag.length)) reply = true := by
        rcases h with h | h | h
        · exact absurd h h0
        · rcases h with h | h
          · omega
          · exact absurd htake h
        · exact h
      cases hr : GetMe (String.mk (authHeader.data.drop bearerTag.length)) reply with
      | ok u =>
        exfalso
        unfold getMeFails at hg
        rw [hr] at hg
        cases hg
      | error e =>
        have heq : AuthMiddleware true authHeader reply = fallbackPass := by
          unfold AuthMiddleware
          rw [if_neg h0, if_neg (by rw [hb]; simp)]
          simp only [hr]
          rfl
        rw [heq]
        exact ⟨rfl, rfl, rfl⟩

/-- C3 witness: a request with no Authorization header proceeds to the
handler with the fallback principal id "1" when fallback is enabled. -/
theorem C3_witness :
    (AuthMiddleware true "" AuthServiceReply.status401).handlerInvoked = true ∧
    (AuthMiddleware true "" AuthServiceReply.status401).aborted = false ∧
    (AuthMiddleware true "" AuthServiceReply.status401).userId = some "1" :=
  C3_fallback_principal "" AuthServiceReply.status401 (Or.inl rfl)

/-- C5: `beginDrain` is idempotent and never reverts the flag; the `/ready`
handler returns 200 {"status":"ok"} exactly while the flag is unset and 503
{"status":"shutting_down"} exactly once it is set, and has no other
responses. -/
theorem C5_drain_idempotent_ready (s : Bool) :
    beginDrain (beginDrain s) = beginDrain s ∧
    beginDrain true = true ∧
    readyHandler false = { status := 200, body := ginStatusBody "ok" } ∧
    readyHandler true = { status := 503, body := ginStatusBody "shutting_down" } ∧
    (readyHandler s = { status := 200, body := ginStatusBody "ok" } ∨
     readyHandler s = { status := 503, body := ginStatusBody "shutting_down" }) ∧
    (readyHandler s = { status := 200, body := ginStatusBody "ok" } ↔ s = false) ∧
    (readyHandler s = { status := 503, body := ginStatusBody "shutting_down" } ↔
      s = true) := by
  cases s <;> decide

/-- C5 witness: the conjunction instantiated at a draining flag. -/
theorem C5_witness :
    beginDrain (beginDrain true) = beginDrain true ∧
    beginDrain true = true ∧
    readyHandler false = { status := 200, body := ginStatusBody "ok" } ∧
    readyHandler true = { status := 503, body := ginStatusBody "shutting_down" } ∧
    (readyHandler true = { status := 200, body := ginStatusBody "ok" } ∨
     readyHandler true = { status := 503, body := ginStatusBody "shutting_down" }) ∧
    (readyHandler true = { status := 200, body := ginStatusBody "ok" } ↔ true = false) ∧
    (readyHandler true = { status := 503, body := ginStatusBody "shutting_down" } ↔
      true = true) :=
  C5_drain_idempotent_ready true

/-- C4 counterexample: on a non-exempted path, a handler panic propagating
through the middleware skips the decrement (it is not deferred), so the
in-flight gauge ends one above its pre-request value — the claim that the
gauge returns to its pre-request value however the request completes is
false. -/
theorem C4_counterexample :
    shouldCollectMetrics "/x" = true ∧
    (PrometheusMiddleware "GET" "/x" 0 HandlerOutcome.panicked).panicPropagated = true ∧
    inFlightDelta (PrometheusMiddleware "GET" "/x" 0 HandlerOutcome.panicked).events
      "GET" "/x" = 1 ∧
    inFlightDelta (PrometheusMiddleware "GET" "/x" 0 HandlerOutcome.panicked).events
      "GET" "/x" ≠ 0 := by
  decide

/-- C4 (amended): for every request through which `c.Next()` returns
normally — including requests whose client connection dropped, since the
handler still runs to completion — the in-flight gauge returns to its
pre-request value at every label pair; when a panic propagates through the
middleware the decrement is skipped. -/
theorem C4_inflight_balanced_on_normal_completion (method path : String)
    (contentLength responseBytes : Int) (status : Nat) (m p : String) :
    inFlightDelta
      (PrometheusMiddleware method path contentLength
        (HandlerOutcome.normal status responseBytes)).events m p = 0 := by
  unfold PrometheusMiddleware
  by_cases hc : shouldCollectMetrics path
  · rw [if_neg (by simp [hc])]
    by_cases h5 : status ≥ 500
    · simp only [if_pos h5, inFlightDelta, List.cons_append, List.nil_append,
        List.foldl_cons, List.foldl_nil]
      cases hb : (decide (method = m) && decide (path = p)) <;> simp [hb]
    · simp only [if_neg h5, inFlightDelta, List.cons_append, List.nil_append,
        List.foldl_cons, List.foldl_nil]
      cases hb : (decide (method = m) && decide (path = p)) <;> simp [hb]
  · rw [if_pos (by simp [Bool.not_eq_true] at hc; simp [hc])]
    rfl

/-- C7 counterexample: `/favicon.ico` is not in the code's exclusion list
(`/health`, `/ready`, `/metrics`, `/readiness`, `/liveness`), so a request to
it does touch metrics — the claim's exclusion set, which includes favicon, is
wrong. -/
theorem C7_counterexample :
    shouldCollectMetrics "/favicon.ico" = true ∧
    (PrometheusMiddleware "GET" "/favicon.ico" 0
      (HandlerOutcome.normal 200 0)).events ≠ [] ∧
    MetricEvent.incInFlight "GET" "/favicon.ico" ∈
      (PrometheusMiddleware "GET" "/favicon.ico" 0
        (HandlerOutcome.normal 200 0)).events := by
  decide

/-- C7 (amended): for every request whose path starts with one of the five
infrastructure path strings `/health`, `/ready`, `/metrics`, `/readiness`,
`/liveness` (favicon is not exempted), the metrics middleware performs no
metric operation at all — no gauge, histogram, or counter is touched — and
delegates straight to the next stage. -/
theorem C7_exempt_paths_touch_no_metrics (method path : String)
    (contentLength : Int) (outcome : HandlerOutcome)
    (h : shouldCollectMetrics path = false) :
    (PrometheusMiddleware method path contentLength outcome).events = [] := by
  unfold PrometheusMiddleware
  rw [if_pos (by simp [h])]

/-- C7 witness: a `/health` probe request leaves the metrics untouched. -/
theorem C7_witness :
    (PrometheusMiddleware "GET" "/health" 0
      (HandlerOutcome.normal 200 0)).events = [] :=
  C7_exempt_paths_touch_no_metrics "GET" "/health" 0
    (HandlerOutcome.normal 200 0) (by decide)

/-- C1 counterexample: with tracing enabled but failed to initialise, `main`
line 45 stores a typed-nil provider in `tp`, the `tp != nil` check at line
182 passes, and `tp.Shutdown` panics on the nil receiver: the teardown
aborts before the completion log — refuting "each step's failure logged but
never aborting the remaining steps; the whole sequence always completes".
The same trace shows the pool-close step handed no deadline context, so the
program does not enforce "no step blocking indefinitely past the shared
deadline" for it. -/
theorem C1_counterexample :
    ShutdownEvent.completed ∉
      runShutdown 5 10 TracerInit.initFailed ⟨false, false⟩ ∧
    ShutdownEvent.tracerPanicked ∈
      runShutdown 5 10 TracerInit.initFailed ⟨false, false⟩ ∧
    (runShutdown 5 10 TracerInit.initFailed ⟨false, false⟩).getLast? =
      some ShutdownEvent.tracerPanicked ∧
    ShutdownEvent.dbPoolClosed StepCtx.noDeadline ∈
      runShutdown 5 10 TracerInit.initFailed ⟨false, false⟩ := by
  decide

/-- C1 (amended): for every drain delay, shutdown timeout, tracer-init state
and step-outcome assignment, the sequence sets the readiness flag first,
sleeps the drain delay when positive, then derives one deadline; the HTTP
listener stop comes strictly before the database pool close; the HTTP stop
and a successfully initialised tracer's shutdown are handed the same shared
deadline and their errors never abort the sequence; the pool close is handed
no deadline context at all.  The sequence reaches the completion log exactly
when the tracer was disabled or successfully initialised; when tracing
initialisation failed, the typed-nil provider passes the `tp != nil` check
and the tracer step panics, ending the sequence without completion. -/
theorem C1_shutdown_amended (d t : Int) (tracer : TracerInit)
    (oc : ShutdownOutcomes) :
    (runShutdown d t tracer oc).head? = some ShutdownEvent.setShuttingDown ∧
    stepBefore (runShutdown d t tracer oc) isFlagStep isDeadlineStep = true ∧
    (0 < d →
      stepBefore (runShutdown d t tracer oc) isFlagStep isSleepStep = true ∧
      stepBefore (runShutdown d t tracer oc) isSleepStep isDeadlineStep = true) ∧
    stepBefore (runShutdown d t tracer oc) isDeadlineStep isHttpStep = true ∧
    stepBefore (runShutdown d t tracer oc) isHttpStep isDbStep = true ∧
    ShutdownEvent.httpShutdown (StepCtx.sharedDeadline t) oc.httpErr ∈
      runShutdown d t tracer oc ∧
    ShutdownEvent.dbPoolClosed StepCtx.noDeadline ∈ runShutdown d t tracer oc ∧
    (∀ c : StepCtx, ShutdownEvent.dbPoolClosed c ∈ runShutdown d t tracer oc →
      c = StepCtx.noDeadline) ∧
    (tracer = TracerInit.initialized →
      stepBefore (runShutdown d t tracer oc) isDbStep isTracerStep = true ∧
      ShutdownEvent.tracerShutdown (StepCtx.sharedDeadline t) oc.tracerErr ∈
        runShutdown d t tracer oc ∧
      (runShutdown d t tracer oc).getLast? = some ShutdownEvent.completed) ∧
    (tracer = TracerInit.disabled →
      (runShutdown d t tracer oc).getLast? = some ShutdownEvent.completed) ∧
    (tracer = TracerInit.initFailed →
      (runShutdown d t tracer oc).getLast? = some ShutdownEvent.tracerPanicked ∧
      ShutdownEvent.completed ∉ runShutdown d t tracer oc) := by
  obtain ⟨he, te⟩ := oc
  by_cases hd : 0 < d <;> cases tracer <;>
    simp [runShutdown, stepBefore, hd, List.findIdx?_cons, List.findIdx?_nil,
      isFlagStep, isSleepStep, isDeadlineStep, isHttpStep, isDbStep,
      isTracerStep, List.getLast?]

/-- C1 witness for the amended theorem: at drain delay 5s, timeout 10s, an
initialised tracer and both outcome-returning steps failing, the sequence is
ordered, shares the deadline between HTTP and tracer, and completes. -/
theorem C1_amended_witness :
    (runShutdown 5 10 TracerInit.initialized ⟨true, true⟩).head? =
      some ShutdownEvent.setShuttingDown ∧
    stepBefore (runShutdown 5 10 TracerInit.initialized ⟨true, true⟩)
      isHttpStep isDbStep = true ∧
    ShutdownEvent.tracerShutdown (StepCtx.sharedDeadline 10) true ∈
      runShutdown 5 10 TracerInit.initialized ⟨true, true⟩ ∧
    (runShutdown 5 10 TracerInit.initialized ⟨true, true⟩).getLast? =
      some ShutdownEvent.completed := by
  have h := C1_shutdown_amended 5 10 TracerInit.initialized ⟨true, true⟩
  have h9 := h.2.2.2.2.2.2.2.2.1 rfl
  exact ⟨h.1, h.2.2.2.2.1, h9.2.1, h9.2.2⟩

/-! ### Helper lemmas for the trace-identifier claim -/

theorem str_data_append (a b : String) : (a ++ b).data = a.data ++ b.data := by
  cases a
  cases b
  rfl

theorem str_mk_data (s : String) : String.mk s.data = s := rfl

theorem str_eq_empty_iff (s : String) : s = "" ↔ s.data = [] := by
  constructor
  · intro h
    rw [h]
  · intro h
    cases s with
    | mk l =>
      simp only at h
      subst h
      rfl

theorem splitHyphensAux_seg (s : List Char) :
    ∀ (cur : List Char) (acc : List (List Char)) (cs : List Char),
      (∀ c ∈ s, c ≠ '-') →
      splitHyphensAux cur acc (s ++ cs) =
        splitHyphensAux (s.reverse ++ cur) acc cs := by
  induction s with
  | nil =>
    intro cur acc cs _
    simp
  | cons a as ih =>
    intro cur acc cs h
    have ha : a ≠ '-' := h a (List.mem_cons_self a as)
    have h' : ∀ c ∈ as, c ≠ '-' := fun c hc => h c (List.mem_cons_of_mem a hc)
    rw [List.cons_append]
    simp only [splitHyphensAux, if_neg ha]
    rw [ih (a :: cur) acc cs h']
    congr 1
    simp

theorem splitHyphensAux_dash (cur : List Char) (acc : List (List Char))
    (cs : List Char) :
    splitHyphensAux cur acc ('-' :: cs) =
      splitHyphensAux [] (if cur.isEmpty then acc else cur.reverse :: acc) cs := by
  simp [splitHyphensAux]

theorem splitHyphensAux_acc (cs : List Char) :
    ∀ (cur : List Char) (acc : List (List Char)),
      splitHyphensAux cur acc cs = acc.reverse ++ splitHyphensAux cur [] cs := by
  induction cs with
  | nil =>
    intro cur acc
    simp only [splitHyphensAux]
    by_cases hc : cur.isEmpty
    · rw [if_pos hc, if_pos hc]
      simp
    · rw [if_neg hc, if_neg hc]
      simp
  | cons c cs ih =>
    intro cur acc
    simp only [splitHyphensAux]
    by_cases hc : c = '-'
    · rw [if_pos hc, if_pos hc]
      by_cases hcur : cur.isEmpty
      · rw [if_pos hcur, if_pos hcur]
        exact ih [] acc
      · rw [if_neg hcur, if_neg hcur]
        rw [ih [] (cur.reverse :: acc), ih [] [cur.reverse]]
        simp
    · rw [if_neg hc, if_neg hc]
      exact ih (c :: cur) acc

theorem splitTraceParent_firstTwo (v T rest : String)
    (hv : v ≠ "") (hT : T ≠ "") (hvd : NoDash v) (hTd : NoDash T) :
    splitTraceParent (v ++ "-" ++ T ++ "-" ++ rest) =
      v :: T :: splitTraceParent rest := by
  have hvne : v.data ≠ [] := fun hd => hv ((str_eq_empty_iff v).mpr hd)
  have hTne : T.data ≠ [] := fun hd => hT ((str_eq_empty_iff T).mpr hd)
  unfold splitTraceParent
  have hdata : (v ++ "-" ++ T ++ "-" ++ rest).data =
      v.data ++ ('-' :: (T.data ++ ('-' :: rest.data))) := by
    simp [str_data_append]
  rw [hdata]
  rw [splitHyphensAux_seg v.data [] [] _ hvd]
  rw [splitHyphensAux_dash]
  rw [if_neg (by simp [hvne])]
  rw [splitHyphensAux_seg T.data [] _ _ hTd]
  rw [splitHyphensAux_dash]
  rw [if_neg (by simp [hTne])]
  rw [splitHyphensAux_acc rest.data []]
  simp [str_mk_data]

theorem hexDigit_hex (n : Nat) : isHexLower (hexDigit n) = true := by
  rcases Nat.lt_or_ge n 16 with h | h
  · interval_cases n <;> decide
  · unfold hexDigit
    rw [List.getD_eq_default]
    · decide
    · simpa [hexTable] using h

theorem generateTraceID_length (bytes : List Nat) :
    (generateTraceID bytes).length = 2 * bytes.length := by
  unfold generateTraceID
  show ((bytes.map byteToHex).flatten).length = _
  induction bytes with
  | nil => rfl
  | cons b bs ih =>
    simp only [List.map_cons, List.flatten_cons, List.length_append, ih,
      byteToHex, List.length_cons, List.length_nil]
    omega

theorem generateTraceID_hex (bytes : List Nat) :
    ∀ c ∈ (generateTraceID bytes).data, isHexLower c = true := by
  intro c hc
  have hc' : c ∈ (bytes.map byteToHex).flatten := hc
  simp only [List.mem_flatten, List.mem_map] at hc'
  obtain ⟨l, ⟨b, _, rfl⟩, hcl⟩ := hc'
  simp only [byteToHex, List.mem_cons, List.not_mem_nil, or_false] at hcl
  rcases hcl with rfl | rfl <;> exact hexDigit_hex _

/-- C6: if a `traceparent` header carrying trace-id `T` is supplied, the
`X-Trace-ID` response header set by the logging middleware equals `T`; if
neither trace header is present, the response header is a freshly generated
32-character lowercase-hex identifier (the hex encoding of 16 random
bytes). -/
theorem C6_trace_id (v T rest traceIdHeader : String) (fresh : List Nat) :
    (v ≠ "" → T ≠ "" → NoDash v → NoDash T →
      (LoggingRun (v ++ "-" ++ T ++ "-" ++ rest) traceIdHeader fresh).responseTraceHeader
        = T) ∧
    (fresh.length = 16 →
      ((LoggingRun "" "" fresh).responseTraceHeader).length = 32 ∧
      ∀ c ∈ ((LoggingRun "" "" fresh).responseTraceHeader).data,
        isHexLower c = true) := by
  constructor
  · intro hv hT hvd hTd
    have htp_ne : (v ++ "-" ++ T ++ "-" ++ rest) ≠ "" := by
      intro h
      have hd := congrArg String.data h
      simp [str_data_append] at hd
    show GetTraceID (v ++ "-" ++ T ++ "-" ++ rest) traceIdHeader fresh = T
    unfold GetTraceID traceFromParent
    rw [if_neg htp_ne]
    rw [splitTraceParent_firstTwo v T rest hv hT hvd hTd]
    simp [hT]
  · intro hlen
    have hgen : (LoggingRun "" "" fresh).responseTraceHeader =
        generateTraceID fresh := rfl
    rw [hgen, generateTraceID_length, hlen]
    exact ⟨rfl, generateTraceID_hex fresh⟩

/-- C6 witness: a well-formed traceparent's trace-id is echoed; with no
inbound trace header a 32-character identifier is produced. -/
theorem C6_witness :
    (LoggingRun ("00" ++ "-" ++ "abc123" ++ "-" ++ "b7ad-01") "" []).responseTraceHeader
      = "abc123" ∧
    ((LoggingRun "" "" (List.replicate 16 0)).responseTraceHeader).length = 32 := by
  constructor
  · exact (C6_trace_id "00" "abc123" "b7ad-01" "" []).1 (by decide) (by decide)
      (by decide) (by decide)
  · exact ((C6_trace_id "x" "x" "" "" (List.replicate 16 0)).2 (by decide)).1

end UserService
